import Mathlib

/-!
Verification development for the BLE-to-MQTT gateway
(`src/config.py`, `src/gateway.py`).

The gateway's own logic is embedded shallowly:

* Python floats are modelled as rationals (`ℚ`).
* The two per-device parser dictionaries (`self.govee_parsers`,
  `self.thermopro_parsers`) are modelled as association lists in
  insertion order, which is how a Python `dict` iterates and grows.
* The vendor decoder libraries (`govee_ble`, `thermopro_ble`) are external
  collaborators; they are modelled as an arbitrary stateful update function
  (`VendorDecoder`): a per-device state together with an `update` that
  consumes a service-info record and returns the mutated state and a
  `SensorUpdate`.  In-place mutation of a parser object is modelled by
  writing the returned state back into the dictionary.
* MQTT publishing and logging are side effects; the embedding returns the
  list of emitted [Event]s.  The broker's result code for a publish is an
  environment parameter `env : String → String → ℤ` (result code as a
  function of topic and payload); `MQTT_ERR_SUCCESS = 0`.
-/

namespace BLEGW

/-- Embedding of `config.py`:
`MQTT_TOPIC_PREFIX = os.getenv("MQTT_TOPIC_PREFIX", "sensors")`.
The environment variable is the `Option String` argument. -/
def MQTT_TOPIC_PREFIX (envVar : Option String) : String := envVar.getD "sensors"

/-- Embedding of `paho.mqtt.client.MQTT_ERR_SUCCESS` (the success result code, 0). -/
def MQTT_ERR_SUCCESS : ℤ := 0

/-- Python `s.lower()` on the address strings handled here (ASCII):
character-wise ASCII lower-casing, `Char.toLower` on every character. -/
def strLower (s : String) : String := ⟨s.data.map Char.toLower⟩

/-- Python `s.replace("-", ":")`: the pattern is a single character, so the
substring replacement is the character-wise map sending `'-'` to `':'`. -/
def replaceHyphens (s : String) : String :=
  ⟨s.data.map (fun c => if c = '-' then ':' else c)⟩

/-- Embedding of `mac = address.lower().replace("-", ":")` (gateway.py line 77). -/
def macNormalize (address : String) : String := replaceHyphens (strLower address)

/-- Embedding of gateway.py line 78: the output topic is the configured
topic-prefix value, a slash, the normalized address, a slash, and the
sensor type. -/
def topicFor (pfx address sensor_type : String) : String :=
  pfx ++ "/" ++ macNormalize address ++ "/" ++ sensor_type

/-- Python `round(q, 1)` premultiplied by ten: round to the nearest integer,
ties going to the even integer (IEEE round-half-even, which is what Python's
`round` implements), idealised over `ℚ`. -/
def pyRoundHalfEven (q : ℚ) : ℤ :=
  if q - (⌊q⌋ : ℚ) < 1 / 2 then ⌊q⌋
  else if 1 / 2 < q - (⌊q⌋ : ℚ) then ⌊q⌋ + 1
  else if ⌊q⌋ % 2 = 0 then ⌊q⌋ else ⌊q⌋ + 1

/-- Python `int(q)` on a float: truncation toward zero. -/
def pyInt (q : ℚ) : ℤ := if 0 ≤ q then ⌊q⌋ else ⌈q⌉

/-- Python `str(x)` for the non-negative tenths-valued float `n / 10`. -/
def formatTenthsNat (n : ℕ) : String :=
  toString (n / 10) ++ "." ++ toString (n % 10)

/-- Python `str(x)` for the tenths-valued float `k / 10`
(one integer part, a dot, one fractional digit, a leading minus if negative). -/
def formatTenths (k : ℤ) : String :=
  if k < 0 then "-" ++ formatTenthsNat k.natAbs else formatTenthsNat k.natAbs

/-- Embedding of gateway.py line 79:
`payload = str(round(value, 1) if sensor_type != "battery" else int(value))`. -/
def payloadFor (sensor_type : String) (value : ℚ) : String :=
  if sensor_type ≠ "battery" then formatTenths (pyRoundHalfEven (10 * value))
  else toString (pyInt value)

/-- The side effects the gateway emits: MQTT publishes and log lines. -/
inductive Event where
  | publish (topic payload : String) (retain : Bool)
  | logDebug (msg : String)
  | logInfo (msg : String)
  | logError (msg : String)
  deriving DecidableEq

/-- Is this event an MQTT publish? -/
def isPublish : Event → Bool
  | .publish _ _ _ => true
  | _ => false

/-- Does this event keep the invariant "every publish is retained"? -/
def retainOK : Event → Bool
  | .publish _ _ r => r
  | _ => true

/-- Embedding of `bleak.backends.device.BLEDevice`, the fields the gateway reads:
`address` and the optional `name` (`None` modelled as `none`; Python also
treats the empty string as falsy, which the embedding reproduces). -/
structure BLEDevice where
  address : String
  name : Option String
  deriving DecidableEq

/-- Embedding of `bleak.backends.scanner.AdvertisementData`, the fields the gateway reads.
`rssi` and `tx_power` are `Option ℤ` so that both the absent value (`None`)
and the falsy `0` can be distinguished from genuine non-zero readings. -/
structure AdvertisementData where
  rssi : Option ℤ
  tx_power : Option ℤ
  manufacturer_data : List (ℕ × List ℕ)
  service_data : List (String × List ℕ)
  service_uuids : List String
  deriving DecidableEq

/-- Embedding of `home_assistant_bluetooth.BluetoothServiceInfoBleak`, the record the
gateway constructs in `detection_callback` and hands to the decoders. -/
structure BluetoothServiceInfoBleak where
  name : String
  address : String
  rssi : ℤ
  manufacturer_data : List (ℕ × List ℕ)
  service_data : List (String × List ℕ)
  service_uuids : List String
  source : String
  connectable : Bool
  time : ℚ
  tx_power : Option ℤ
  deriving DecidableEq

/-- Embedding of `sensor_state_data.SensorDeviceClass`, restricted to the constructors the
gateway dispatches on; every other device class behaves like `other`. -/
inductive SensorDeviceClass where
  | temperature
  | humidity
  | battery
  | other
  deriving DecidableEq

/-- The decoder result (`SensorUpdate` from the vendor libraries), the fields
the gateway reads: `entity_values` (device key to value, where only the
`native_value` field of the value is used) and `entity_descriptions`
(device key to description, where only `device_class` is used).  Both dicts
are association lists in insertion order. -/
structure SensorUpdate where
  entity_values : List (String × ℚ)
  entity_descriptions : List (String × SensorDeviceClass)
  deriving DecidableEq

/-- A vendor decoder library (external collaborator), modelled as the state
of a freshly constructed parser object together with its `update` method;
`update` returns the mutated parser state and the `SensorUpdate`. -/
structure VendorDecoder (σ : Type) where
  init : σ
  update : σ → BluetoothServiceInfoBleak → σ × SensorUpdate

/-- Python `d.get(k)` / `k in d` on an insertion-ordered dict,
as lookup in an association list. -/
def dictGet {σ : Type} : List (String × σ) → String → Option σ
  | [], _ => none
  | (k', v) :: rest, k => if k' = k then some v else dictGet rest k

/-- Python `d[k] = v` for a key already present: replace the stored value. -/
def dictSet {σ : Type} : List (String × σ) → String → σ → List (String × σ)
  | [], _, _ => []
  | (k0, v0) :: rest, k, v =>
      (if k0 = k then (k0, v) else (k0, v0)) :: dictSet rest k v

/-- The keys of a dict, in insertion order. -/
def dictKeys {σ : Type} (m : List (String × σ)) : List String := m.map Prod.fst

/-- The mutable state of a `BLEGateway` object: the two per-device parser
dictionaries and the stop flag. -/
structure GatewayState (σg σt : Type) where
  govee_parsers : List (String × σg)
  thermopro_parsers : List (String × σt)
  running : Bool
  deriving DecidableEq

/-- Embedding of `BLEGateway.get_govee_parser` and `BLEGateway.get_thermopro_parser`
(gateway.py lines 63-73): get or create the per-device parser for one
vendor.  Returns the parser state routed to and the possibly-extended dict;
a missing key is inserted at the end, as a Python dict does. -/
def parserFor {σ : Type} (ini : σ) (m : List (String × σ)) (address : String) :
    σ × List (String × σ) :=
  match dictGet m address with
  | some s => (s, m)
  | none => (ini, m ++ [(address, ini)])

/-- Embedding of `BLEGateway.publish_sensor_data` (gateway.py lines 75-85).  `st` is
`self` (unused by the computation of topic and payload), `pfx` the
configured topic prefix, `env` the broker's result code for a publish. -/
def publish_sensor_data {σg σt : Type} (st : GatewayState σg σt) (pfx : String)
    (env : String → String → ℤ) (address sensor_type : String) (value : ℚ) :
    List Event :=
  let topic := topicFor pfx address sensor_type
  let payload := payloadFor sensor_type value
  let rc := env topic payload
  Event.publish topic payload true ::
    (if rc = MQTT_ERR_SUCCESS then
      [Event.logDebug ("Published " ++ topic ++ ": " ++ payload)]
    else
      [Event.logError ("Failed to publish to " ++ topic ++ ": " ++ toString rc)])

/-- One iteration of the `for device_key, sensor_value in
update.entity_values.items()` loop of `BLEGateway.process_sensor_update`
(gateway.py lines 94-111). -/
def entryEvents {σg σt : Type} (st : GatewayState σg σt) (pfx : String)
    (env : String → String → ℤ) (device : BLEDevice)
    (descs : List (String × SensorDeviceClass)) (e : String × ℚ) : List Event :=
  match dictGet descs e.1 with
  | none => []
  | some SensorDeviceClass.temperature =>
      publish_sensor_data st pfx env device.address "temperature" e.2 ++
        [Event.logInfo ("  Temperature: " ++ toString e.2)]
  | some SensorDeviceClass.humidity =>
      publish_sensor_data st pfx env device.address "humidity" e.2 ++
        [Event.logInfo ("  Humidity: " ++ toString e.2)]
  | some SensorDeviceClass.battery =>
      publish_sensor_data st pfx env device.address "battery" e.2 ++
        [Event.logInfo ("  Battery: " ++ toString e.2)]
  | some SensorDeviceClass.other => []

/-- Embedding of `BLEGateway.process_sensor_update` (gateway.py lines 87-113): returns
the Python return value (`False` when `entity_values` is falsy, else
`True`) together with the emitted events. -/
def process_sensor_update {σg σt : Type} (st : GatewayState σg σt)
    (pfx : String) (env : String → String → ℤ) (device : BLEDevice)
    (update : SensorUpdate) : Bool × List Event :=
  if update.entity_values = [] then (false, [])
  else
    (true,
      Event.logInfo ("Device: " ++ device.address ++ " (" ++
          (match device.name with
            | some n => if n = "" then "Unknown" else n
            | none => "Unknown") ++ ")") ::
        (update.entity_values.map
            (entryEvents st pfx env device update.entity_descriptions)).flatten)

/-- The `BluetoothServiceInfoBleak(...)` construction of
`BLEGateway.detection_callback` (gateway.py lines 119-132).  `now` is the
value of `time.monotonic()`.  Python truthiness: a `name` of `None` or `""`
falls back to the address, an `rssi` of `None` or `0` becomes `-127`, a
`tx_power` of `None` or `0` becomes `None`. -/
def mkServiceInfo (device : BLEDevice) (adv : AdvertisementData) (now : ℚ) :
    BluetoothServiceInfoBleak where
  name := match device.name with
    | some n => if n = "" then device.address else n
    | none => device.address
  address := device.address
  rssi := match adv.rssi with
    | some r => if r = 0 then -127 else r
    | none => -127
  manufacturer_data := adv.manufacturer_data
  service_data := adv.service_data
  service_uuids := adv.service_uuids
  source := "local"
  connectable := false
  time := now
  tx_power := match adv.tx_power with
    | some t => if t = 0 then none else some t
    | none => none

/-- Embedding of `BLEGateway.detection_callback` (gateway.py lines 115-143): build the
service info, try the Govee parser for this device; if it handled the
advertisement stop, otherwise try the ThermoPro parser.  Returns the new
gateway state and the emitted events. -/
def detection_callback {σg σt : Type} (Vg : VendorDecoder σg)
    (Vt : VendorDecoder σt) (pfx : String) (env : String → String → ℤ)
    (now : ℚ) (st : GatewayState σg σt) (device : BLEDevice)
    (adv : AdvertisementData) : GatewayState σg σt × List Event :=
  let info := mkServiceInfo device adv now
  let gp := parserFor Vg.init st.govee_parsers device.address
  let gu := Vg.update gp.1 info
  let st1 : GatewayState σg σt :=
    { st with govee_parsers := dictSet gp.2 device.address gu.1 }
  let pg := process_sensor_update st1 pfx env device gu.2
  if pg.1 then (st1, pg.2)
  else
    let tp := parserFor Vt.init st1.thermopro_parsers device.address
    let tu := Vt.update tp.1 info
    let st2 : GatewayState σg σt :=
      { st1 with thermopro_parsers := dictSet tp.2 device.address tu.1 }
    let pt := process_sensor_update st2 pfx env device tu.2
    (st2, pg.2 ++ pt.2)

/-- Spec-side topic derivation, following the specification's words: the
topic is the prefix, the address component "fully lowercased" with "every
hyphen replaced by a colon", and the measurement kind, joined by slashes.
To be compared with the code-side `topicFor`. -/
def specTopic (pfx address kind : String) : String :=
  pfx ++ "/" ++ String.mk (address.data.map
    (fun c => if c = '-' then ':' else c.toLower)) ++ "/" ++ kind

/-- The publishes the specification expects from one `SensorUpdate`: each
reading of a recognized measurement kind, in order, exactly once. -/
def expectedPublishes (pfx address : String) (u : SensorUpdate) : List Event :=
  (u.entity_values.map fun e =>
    match dictGet u.entity_descriptions e.1 with
    | some SensorDeviceClass.temperature =>
        [Event.publish (topicFor pfx address "temperature")
          (payloadFor "temperature" e.2) true]
    | some SensorDeviceClass.humidity =>
        [Event.publish (topicFor pfx address "humidity")
          (payloadFor "humidity" e.2) true]
    | some SensorDeviceClass.battery =>
        [Event.publish (topicFor pfx address "battery")
          (payloadFor "battery" e.2) true]
    | _ => []).flatten

/-- A decoder that always reports the same `SensorUpdate` and counts its
invocations in its state (used to instantiate the external decoders in
concrete scenarios). -/
def constDecoder (u : SensorUpdate) : VendorDecoder ℕ where
  init := 0
  update := fun s _ => (s + 1, u)

/-- A `SensorUpdate` with no readings (decoder did not recognize the device). -/
def emptySensorUpdate : SensorUpdate where
  entity_values := []
  entity_descriptions := []

/-- End-to-end scenario 1 of the spec: temperature 21.34 and humidity 55.6. -/
def scenarioUpdate : SensorUpdate where
  entity_values := [("temp", 2134 / 100), ("hum", 556 / 10)]
  entity_descriptions :=
    [("temp", SensorDeviceClass.temperature), ("hum", SensorDeviceClass.humidity)]

/-- End-to-end scenario 1 of the spec: the advertising device. -/
def scenarioDevice : BLEDevice where
  address := "A4:C1:38:00:00:01"
  name := none

/-- A concrete advertisement record for the scenarios. -/
def scenarioAdv : AdvertisementData where
  rssi := some (-60)
  tx_power := none
  manufacturer_data := [(60552, [1, 2, 3])]
  service_data := []
  service_uuids := []

/-- A freshly constructed gateway: both parser dicts empty (`__init__`). -/
def initGateway : GatewayState ℕ ℕ where
  govee_parsers := []
  thermopro_parsers := []
  running := false

/-- A broker that accepts every publish. -/
def envOK : String → String → ℤ := fun _ _ => 0

/-- A broker that answers every publish with a non-success result code. -/
def envFail : String → String → ℤ := fun _ _ => 1

/-- An advertisement whose RSSI and transmit power are both exactly 0. -/
def advZero : AdvertisementData where
  rssi := some 0
  tx_power := some 0
  manufacturer_data := []
  service_data := []
  service_uuids := []

/-- The scenario device seen again, this time with a human-readable name. -/
def scenarioDeviceNamed : BLEDevice where
  address := "A4:C1:38:00:00:01"
  name := some "GVH5075"

/-! ### Supporting lemmas: characters -/

theorem toNat_ofNat_valid {n : ℕ} (h : n < 55296) : (Char.ofNat n).toNat = n := by
  rw [Char.ofNat, dif_pos (Or.inl h)]
  simp [Char.ofNatAux, Char.toNat, UInt32.toNat]

theorem toLower_toNat (c : Char) :
    (Char.toLower c).toNat =
      if 65 ≤ c.toNat ∧ c.toNat ≤ 90 then c.toNat + 32 else c.toNat := by
  rw [Char.toLower]
  split
  · next h => exact toNat_ofNat_valid (by omega)
  · rfl

theorem char_eq_of_toNat_eq {c d : Char} (h : c.toNat = d.toNat) : c = d :=
  Char.ext (UInt32.toNat.inj h)

theorem isUpper_eq_decide (c : Char) :
    c.isUpper = decide (65 ≤ c.toNat ∧ c.toNat ≤ 90) := by
  rw [Char.isUpper, Bool.decide_and]
  rfl

theorem toLower_isUpper (c : Char) : (Char.toLower c).isUpper = false := by
  rw [isUpper_eq_decide, decide_eq_false_iff_not, toLower_toNat]
  split <;> omega

theorem toLower_eq_hyphen_iff (c : Char) : Char.toLower c = '-' ↔ c = '-' := by
  constructor
  · intro h
    have ht := toLower_toNat c
    rw [h] at ht
    have h45 : ('-').toNat = 45 := rfl
    rw [h45] at ht
    apply char_eq_of_toNat_eq
    rw [h45]
    split at ht <;> omega
  · intro h
    rw [h]
    decide

/-! ### Supporting lemmas: address normalization -/

theorem map_toLower_hyphen (l : List Char) :
    (l.map Char.toLower).map (fun c => if c = '-' then ':' else c) =
      l.map (fun c => if c = '-' then ':' else c.toLower) := by
  rw [List.map_map]
  apply List.map_congr_left
  intro c _
  show (if c.toLower = '-' then ':' else c.toLower) = _
  by_cases hc : c = '-'
  · rw [if_pos ((toLower_eq_hyphen_iff c).mpr hc), if_pos hc]
  · rw [if_neg (fun h => hc ((toLower_eq_hyphen_iff c).mp h)), if_neg hc]

theorem macNormalize_eq (address : String) :
    macNormalize address =
      String.mk (address.data.map (fun c => if c = '-' then ':' else c.toLower)) := by
  rw [macNormalize, replaceHyphens, strLower]
  exact congrArg String.mk (map_toLower_hyphen address.data)

theorem macNormalize_data (address : String) :
    (macNormalize address).data =
      address.data.map (fun c => if c = '-' then ':' else c.toLower) := by
  rw [macNormalize_eq]

theorem topicFor_eq_specTopic (pfx address kind : String) :
    topicFor pfx address kind = specTopic pfx address kind := by
  rw [topicFor, specTopic, macNormalize_eq]

theorem macNormalize_no_upper_no_hyphen (address : String) :
    ∀ c ∈ (macNormalize address).data, c.isUpper = false ∧ c ≠ '-' := by
  intro c hc
  rw [macNormalize_data] at hc
  obtain ⟨d, _, hd⟩ := List.mem_map.mp hc
  by_cases h : d = '-'
  · rw [h] at hd
    simp only [if_pos rfl] at hd
    subst hd
    exact ⟨rfl, by decide⟩
  · rw [if_neg h] at hd
    subst hd
    refine ⟨toLower_isUpper d, fun hcon => h ((toLower_eq_hyphen_iff d).mp hcon)⟩

/-! ### Supporting lemmas: rounding -/

theorem abs_pyRoundHalfEven_sub_le (q : ℚ) :
    |(pyRoundHalfEven q : ℚ) - q| ≤ 1 / 2 := by
  have h1 : (⌊q⌋ : ℚ) ≤ q := Int.floor_le q
  have h2 : q < ⌊q⌋ + 1 := Int.lt_floor_add_one q
  rw [pyRoundHalfEven]
  split
  · next h => rw [abs_le]; constructor <;> linarith
  · next h =>
    split
    · next h' => rw [abs_le, Int.cast_add, Int.cast_one]; constructor <;> linarith
    · next h' =>
      split
      · rw [abs_le]; constructor <;> linarith
      · rw [abs_le, Int.cast_add, Int.cast_one]; constructor <;> linarith

/-! ### Supporting lemmas: dictionaries -/

theorem dictGet_set_ne {σ : Type} (m : List (String × σ)) {k k' : String}
    (v : σ) (h : k' ≠ k) : dictGet (dictSet m k v) k' = dictGet m k' := by
  induction m with
  | nil => rfl
  | cons p rest ih =>
    obtain ⟨k0, v0⟩ := p
    by_cases hk : k0 = k
    · subst hk
      rw [dictSet, dictGet, if_pos rfl, dictGet, if_neg (fun hh => h hh.symm),
        if_neg (fun hh => h hh.symm), ih]
    · rw [dictSet, dictGet, if_neg hk]
      by_cases hk' : k0 = k'
      · rw [if_pos hk', dictGet, if_pos hk']
      · rw [if_neg hk', dictGet, if_neg hk', ih]

theorem dictGet_set_self {σ : Type} (m : List (String × σ)) (k : String)
    (v : σ) : dictGet (dictSet m k v) k = (dictGet m k).map (fun _ => v) := by
  induction m with
  | nil => rfl
  | cons p rest ih =>
    obtain ⟨k0, v0⟩ := p
    by_cases hk : k0 = k
    · rw [dictSet, dictGet, if_pos hk, if_pos hk, dictGet, if_pos hk]
      rfl
    · rw [dictSet, dictGet, if_neg hk, if_neg hk, dictGet, if_neg hk, ih]

theorem dictGet_append_single_ne {σ : Type} (m : List (String × σ))
    {k k' : String} (v : σ) (h : k' ≠ k) :
    dictGet (m ++ [(k, v)]) k' = dictGet m k' := by
  induction m with
  | nil => exact if_neg (fun hh => h hh.symm)
  | cons p rest ih =>
    obtain ⟨k0, v0⟩ := p
    rw [List.cons_append, dictGet, dictGet]
    by_cases hk' : k0 = k'
    · rw [if_pos hk', if_pos hk']
    · rw [if_neg hk', if_neg hk', ih]

theorem dictGet_append_single_self {σ : Type} (m : List (String × σ))
    {k : String} (v : σ) (h : dictGet m k = none) :
    dictGet (m ++ [(k, v)]) k = some v := by
  induction m with
  | nil => exact if_pos rfl
  | cons p rest ih =>
    obtain ⟨k0, v0⟩ := p
    rw [dictGet] at h
    rw [List.cons_append, dictGet]
    by_cases hk : k0 = k
    · rw [if_pos hk] at h
      exact absurd h (by simp)
    · rw [if_neg hk] at h ⊢
      exact ih h

theorem dictKeys_set {σ : Type} (m : List (String × σ)) (k : String) (v : σ) :
    dictKeys (dictSet m k v) = dictKeys m := by
  induction m with
  | nil => rfl
  | cons p rest ih =>
    obtain ⟨k0, v0⟩ := p
    by_cases hk : k0 = k
    · rw [dictSet, if_pos hk]
      show k0 :: dictKeys (dictSet rest k v) = k0 :: dictKeys rest
      exact congrArg _ ih
    · rw [dictSet, if_neg hk]
      show k0 :: dictKeys (dictSet rest k v) = k0 :: dictKeys rest
      exact congrArg _ ih

theorem dictKeys_append_single {σ : Type} (m : List (String × σ)) (k : String)
    (v : σ) : dictKeys (m ++ [(k, v)]) = dictKeys m ++ [k] := by
  rw [dictKeys, List.map_append, dictKeys]
  rfl

theorem dictGet_eq_none_iff {σ : Type} (m : List (String × σ)) (k : String) :
    dictGet m k = none ↔ k ∉ dictKeys m := by
  induction m with
  | nil => simp [dictGet, dictKeys]
  | cons p rest ih =>
    obtain ⟨k0, v0⟩ := p
    rw [dictGet, dictKeys, List.map_cons]
    by_cases hk : k0 = k
    · rw [if_pos hk]
      simp [hk]
    · rw [if_neg hk]
      simp only [List.mem_cons, ih, dictKeys]
      constructor
      · intro hn hmem
        rcases hmem with hmem | hmem
        · exact hk hmem.symm
        · exact hn hmem
      · intro hn
        exact fun hmem => hn (Or.inr hmem)

/-! ### Supporting lemmas: get-or-create followed by a state write-back -/

theorem dictGet_parserFor_snd_ne {σ : Type} (ini : σ) (m : List (String × σ))
    {addr k : String} (h : k ≠ addr) :
    dictGet (parserFor ini m addr).2 k = dictGet m k := by
  rw [parserFor]
  split
  · rfl
  · exact dictGet_append_single_ne m ini h

theorem dictGet_parserFor_snd_self {σ : Type} (ini : σ) (m : List (String × σ))
    (addr : String) :
    dictGet (parserFor ini m addr).2 addr = some (parserFor ini m addr).1 := by
  rw [parserFor]
  split
  · next s hs => exact hs
  · next hs => exact dictGet_append_single_self m ini hs

theorem nodup_parserFor_snd {σ : Type} (ini : σ) (m : List (String × σ))
    (addr : String) (h : (dictKeys m).Nodup) :
    (dictKeys (parserFor ini m addr).2).Nodup := by
  rw [parserFor]
  split
  · exact h
  · next hs =>
    rw [dictKeys_append_single]
    have haddr : addr ∉ dictKeys m := (dictGet_eq_none_iff m addr).mp hs
    simp [List.nodup_append, h, haddr]

theorem get_after_update_ne {σ : Type} (ini : σ) (m : List (String × σ))
    {addr k : String} (v : σ) (h : k ≠ addr) :
    dictGet (dictSet (parserFor ini m addr).2 addr v) k = dictGet m k := by
  rw [dictGet_set_ne _ _ h, dictGet_parserFor_snd_ne _ _ h]

theorem get_after_update_self {σ : Type} (ini : σ) (m : List (String × σ))
    (addr : String) (v : σ) :
    dictGet (dictSet (parserFor ini m addr).2 addr v) addr = some v := by
  rw [dictGet_set_self, dictGet_parserFor_snd_self]
  rfl

theorem isSome_after_update {σ : Type} (ini : σ) (m : List (String × σ))
    (addr k : String) (v : σ) (h : (dictGet m k).isSome = true) :
    (dictGet (dictSet (parserFor ini m addr).2 addr v) k).isSome = true := by
  by_cases hk : k = addr
  · subst hk
    rw [get_after_update_self]
    rfl
  · rw [get_after_update_ne _ _ _ hk]
    exact h

theorem nodup_after_update {σ : Type} (ini : σ) (m : List (String × σ))
    (addr : String) (v : σ) (h : (dictKeys m).Nodup) :
    (dictKeys (dictSet (parserFor ini m addr).2 addr v)).Nodup := by
  rw [dictKeys_set]
  exact nodup_parserFor_snd ini m addr h

/-! ### Supporting lemmas: publishing and processing -/

theorem filter_isPublish_psd {σg σt : Type} (st : GatewayState σg σt)
    (pfx : String) (env : String → String → ℤ) (a k : String) (v : ℚ) :
    (publish_sensor_data st pfx env a k v).filter isPublish
      = [Event.publish (topicFor pfx a k) (payloadFor k v) true] := by
  rw [publish_sensor_data]
  by_cases h : env (topicFor pfx a k) (payloadFor k v) = MQTT_ERR_SUCCESS <;>
    simp [h, isPublish]

theorem all_retainOK_psd {σg σt : Type} (st : GatewayState σg σt)
    (pfx : String) (env : String → String → ℤ) (a k : String) (v : ℚ) :
    (publish_sensor_data st pfx env a k v).all retainOK = true := by
  rw [publish_sensor_data]
  by_cases h : env (topicFor pfx a k) (payloadFor k v) = MQTT_ERR_SUCCESS <;>
    simp [h, retainOK]

theorem process_fst {σg σt : Type} (st : GatewayState σg σt) (pfx : String)
    (env : String → String → ℤ) (device : BLEDevice) (u : SensorUpdate) :
    (process_sensor_update st pfx env device u).1 = true ↔
      u.entity_values ≠ [] := by
  rw [process_sensor_update]
  split <;> simp_all

theorem process_empty {σg σt : Type} (st : GatewayState σg σt) (pfx : String)
    (env : String → String → ℤ) (device : BLEDevice) (u : SensorUpdate)
    (h : u.entity_values = []) :
    process_sensor_update st pfx env device u = (false, []) := by
  rw [process_sensor_update, if_pos h]

theorem filter_isPublish_entryEvents {σg σt : Type} (st : GatewayState σg σt)
    (pfx : String) (env : String → String → ℤ) (device : BLEDevice)
    (descs : List (String × SensorDeviceClass)) (e : String × ℚ) :
    (entryEvents st pfx env device descs e).filter isPublish =
      (match dictGet descs e.1 with
        | some SensorDeviceClass.temperature =>
            [Event.publish (topicFor pfx device.address "temperature")
              (payloadFor "temperature" e.2) true]
        | some SensorDeviceClass.humidity =>
            [Event.publish (topicFor pfx device.address "humidity")
              (payloadFor "humidity" e.2) true]
        | some SensorDeviceClass.battery =>
            [Event.publish (topicFor pfx device.address "battery")
              (payloadFor "battery" e.2) true]
        | _ => []) := by
  rw [entryEvents]
  split <;>
    simp_all [List.filter_append, filter_isPublish_psd, isPublish]

theorem filter_isPublish_process {σg σt : Type} (st : GatewayState σg σt)
    (pfx : String) (env : String → String → ℤ) (device : BLEDevice)
    (u : SensorUpdate) :
    (process_sensor_update st pfx env device u).2.filter isPublish =
      expectedPublishes pfx device.address u := by
  rw [process_sensor_update, expectedPublishes]
  split
  · next h => rw [h]; rfl
  · next h =>
    rw [List.filter_cons]
    show (if false = true then _ else _) = _
    rw [if_neg (by decide), List.filter_flatten, List.map_map]
    apply congrArg List.flatten
    apply List.map_congr_left
    intro e _
    exact filter_isPublish_entryEvents st pfx env device u.entity_descriptions e

theorem all_retainOK_entryEvents {σg σt : Type} (st : GatewayState σg σt)
    (pfx : String) (env : String → String → ℤ) (device : BLEDevice)
    (descs : List (String × SensorDeviceClass)) (e : String × ℚ) :
    (entryEvents st pfx env device descs e).all retainOK = true := by
  rw [entryEvents]
  split <;> simp_all [all_retainOK_psd, retainOK]

theorem all_retainOK_process {σg σt : Type} (st : GatewayState σg σt)
    (pfx : String) (env : String → String → ℤ) (device : BLEDevice)
    (u : SensorUpdate) :
    (process_sensor_update st pfx env device u).2.all retainOK = true := by
  rw [process_sensor_update]
  split
  · rfl
  · rw [List.all_cons]
    show (retainOK (Event.logInfo _) && _) = true
    rw [show ∀ m, retainOK (Event.logInfo m) = true from fun _ => rfl,
      Bool.true_and, List.all_flatten, List.all_eq_true]
    intro l hl
    rw [List.mem_map] at hl
    obtain ⟨e, _, he⟩ := hl
    exact he ▸ all_retainOK_entryEvents st pfx env device u.entity_descriptions e

/-! ### Supporting lemmas: the detection callback -/

theorem detection_govee_map {σg σt : Type} (Vg : VendorDecoder σg)
    (Vt : VendorDecoder σt) (pfx : String) (env : String → String → ℤ)
    (now : ℚ) (st : GatewayState σg σt) (device : BLEDevice)
    (adv : AdvertisementData) :
    (detection_callback Vg Vt pfx env now st device adv).1.govee_parsers =
      dictSet (parserFor Vg.init st.govee_parsers device.address).2
        device.address
        (Vg.update (parserFor Vg.init st.govee_parsers device.address).1
          (mkServiceInfo device adv now)).1 := by
  dsimp only [detection_callback]
  split <;> rfl

theorem process_st_indep {σg σt σg' σt' : Type} (st : GatewayState σg σt)
    (st' : GatewayState σg' σt') (pfx : String) (env : String → String → ℤ)
    (device : BLEDevice) (u : SensorUpdate) :
    process_sensor_update st pfx env device u =
      process_sensor_update st' pfx env device u := rfl

theorem detection_running {σg σt : Type} (Vg : VendorDecoder σg)
    (Vt : VendorDecoder σt) (pfx : String) (env : String → String → ℤ)
    (now : ℚ) (st : GatewayState σg σt) (device : BLEDevice)
    (adv : AdvertisementData) :
    (detection_callback Vg Vt pfx env now st device adv).1.running =
      st.running := by
  dsimp only [detection_callback]
  split <;> rfl

theorem detection_vt_indep {σg σt : Type} (Vg : VendorDecoder σg)
    (Vt Vt' : VendorDecoder σt) (pfx : String) (env : String → String → ℤ)
    (now : ℚ) (st : GatewayState σg σt) (device : BLEDevice)
    (adv : AdvertisementData)
    (h : (Vg.update (parserFor Vg.init st.govee_parsers device.address).1
            (mkServiceInfo device adv now)).2.entity_values ≠ []) :
    detection_callback Vg Vt pfx env now st device adv =
      detection_callback Vg Vt' pfx env now st device adv := by
  dsimp only [detection_callback]
  rw [if_pos ((process_fst _ _ _ _ _).mpr h), if_pos ((process_fst _ _ _ _ _).mpr h)]

theorem detection_thermo_map_handled {σg σt : Type} (Vg : VendorDecoder σg)
    (Vt : VendorDecoder σt) (pfx : String) (env : String → String → ℤ)
    (now : ℚ) (st : GatewayState σg σt) (device : BLEDevice)
    (adv : AdvertisementData)
    (h : (Vg.update (parserFor Vg.init st.govee_parsers device.address).1
            (mkServiceInfo device adv now)).2.entity_values ≠ []) :
    (detection_callback Vg Vt pfx env now st device adv).1.thermopro_parsers =
      st.thermopro_parsers := by
  dsimp only [detection_callback]
  rw [if_pos ((process_fst _ _ _ _ _).mpr h)]

theorem detection_events_handled {σg σt : Type} (Vg : VendorDecoder σg)
    (Vt : VendorDecoder σt) (pfx : String) (env : String → String → ℤ)
    (now : ℚ) (st : GatewayState σg σt) (device : BLEDevice)
    (adv : AdvertisementData)
    (h : (Vg.update (parserFor Vg.init st.govee_parsers device.address).1
            (mkServiceInfo device adv now)).2.entity_values ≠ []) :
    (detection_callback Vg Vt pfx env now st device adv).2 =
      (process_sensor_update st pfx env device
        (Vg.update (parserFor Vg.init st.govee_parsers device.address).1
          (mkServiceInfo device adv now)).2).2 := by
  dsimp only [detection_callback]
  rw [if_pos ((process_fst _ _ _ _ _).mpr h)]
  rfl

theorem detection_thermo_map_unhandled {σg σt : Type} (Vg : VendorDecoder σg)
    (Vt : VendorDecoder σt) (pfx : String) (env : String → String → ℤ)
    (now : ℚ) (st : GatewayState σg σt) (device : BLEDevice)
    (adv : AdvertisementData)
    (h : (Vg.update (parserFor Vg.init st.govee_parsers device.address).1
            (mkServiceInfo device adv now)).2.entity_values = []) :
    (detection_callback Vg Vt pfx env now st device adv).1.thermopro_parsers =
      dictSet (parserFor Vt.init st.thermopro_parsers device.address).2
        device.address
        (Vt.update (parserFor Vt.init st.thermopro_parsers device.address).1
          (mkServiceInfo device adv now)).1 := by
  dsimp only [detection_callback]
  rw [process_empty _ _ _ _ _ h]
  rfl

theorem detection_events_unhandled {σg σt : Type} (Vg : VendorDecoder σg)
    (Vt : VendorDecoder σt) (pfx : String) (env : String → String → ℤ)
    (now : ℚ) (st : GatewayState σg σt) (device : BLEDevice)
    (adv : AdvertisementData)
    (h : (Vg.update (parserFor Vg.init st.govee_parsers device.address).1
            (mkServiceInfo device adv now)).2.entity_values = []) :
    (detection_callback Vg Vt pfx env now st device adv).2 =
      (process_sensor_update st pfx env device
        (Vt.update (parserFor Vt.init st.thermopro_parsers device.address).1
          (mkServiceInfo device adv now)).2).2 := by
  dsimp only [detection_callback]
  rw [process_empty _ _ _ _ _ h]
  rfl

theorem detection_state_env_indep {σg σt : Type} (Vg : VendorDecoder σg)
    (Vt : VendorDecoder σt) (pfx : String) (env env' : String → String → ℤ)
    (now : ℚ) (st : GatewayState σg σt) (device : BLEDevice)
    (adv : AdvertisementData) :
    (detection_callback Vg Vt pfx env now st device adv).1 =
      (detection_callback Vg Vt pfx env' now st device adv).1 := by
  by_cases h : (Vg.update (parserFor Vg.init st.govee_parsers device.address).1
      (mkServiceInfo device adv now)).2.entity_values = []
  · dsimp only [detection_callback]
    rw [process_empty _ _ _ _ _ h, process_empty _ _ _ _ _ h]
    rfl
  · dsimp only [detection_callback]
    rw [if_pos ((process_fst _ _ _ _ _).mpr h),
      if_pos ((process_fst _ _ _ _ _).mpr h)]

theorem detection_govee_get_ne {σg σt : Type} (Vg : VendorDecoder σg)
    (Vt : VendorDecoder σt) (pfx : String) (env : String → String → ℤ)
    (now : ℚ) (st : GatewayState σg σt) (device : BLEDevice)
    (adv : AdvertisementData) {k : String} (h : k ≠ device.address) :
    dictGet (detection_callback Vg Vt pfx env now st device adv).1.govee_parsers
      k = dictGet st.govee_parsers k := by
  rw [detection_govee_map, get_after_update_ne _ _ _ h]

theorem detection_thermo_get_ne {σg σt : Type} (Vg : VendorDecoder σg)
    (Vt : VendorDecoder σt) (pfx : String) (env : String → String → ℤ)
    (now : ℚ) (st : GatewayState σg σt) (device : BLEDevice)
    (adv : AdvertisementData) {k : String} (h : k ≠ device.address) :
    dictGet
      (detection_callback Vg Vt pfx env now st device adv).1.thermopro_parsers
      k = dictGet st.thermopro_parsers k := by
  by_cases hg : (Vg.update (parserFor Vg.init st.govee_parsers device.address).1
      (mkServiceInfo device adv now)).2.entity_values = []
  · rw [detection_thermo_map_unhandled _ _ _ _ _ _ _ _ hg,
      get_after_update_ne _ _ _ h]
  · rw [detection_thermo_map_handled _ _ _ _ _ _ _ _ hg]

/-! ### Supporting lemmas: concrete payload values -/

theorem payload_temperature_2134 : payloadFor "temperature" (2134 / 100) = "21.3" := by
  rw [payloadFor, if_pos (by decide)]
  have hf : ⌊(10 * (2134 / 100) : ℚ)⌋ = 213 := by
    rw [Int.floor_eq_iff]
    push_cast
    norm_num
  have hr : pyRoundHalfEven (10 * (2134 / 100)) = 213 := by
    rw [pyRoundHalfEven, hf, if_pos (by push_cast; norm_num)]
  rw [hr]
  decide

theorem payload_humidity_556 : payloadFor "humidity" (556 / 10) = "55.6" := by
  rw [payloadFor, if_pos (by decide)]
  have hf : ⌊(10 * (556 / 10) : ℚ)⌋ = 556 := by
    rw [Int.floor_eq_iff]
    push_cast
    norm_num
  have hr : pyRoundHalfEven (10 * (556 / 10)) = 556 := by
    rw [pyRoundHalfEven, hf, if_pos (by push_cast; norm_num)]
  rw [hr]
  decide

theorem payload_battery_879 : payloadFor "battery" (879 / 10) = "87" := by
  rw [payloadFor, if_neg (by simp)]
  have hf : ⌊(879 / 10 : ℚ)⌋ = 87 := by
    rw [Int.floor_eq_iff]
    push_cast
    norm_num
  rw [pyInt, if_pos (by norm_num), hf]
  decide

/-! ### The claims -/

/-- C1: For every incoming advertisement, vendor decoders are tried in a fixed
priority order (Govee first, then ThermoPro); if the first decoder reports one
or more recognized readings, the second decoder is not invoked for that
advertisement — the outcome does not depend on the ThermoPro decoder at all and
the ThermoPro parser dictionary is untouched — so a device is attributed to at
most one vendor's readings per advertisement. -/
theorem C1_vendor_priority {σg σt : Type} (Vg : VendorDecoder σg)
    (Vt Vt' : VendorDecoder σt) (pfx : String) (env : String → String → ℤ)
    (now : ℚ) (st : GatewayState σg σt) (device : BLEDevice)
    (adv : AdvertisementData)
    (h : (Vg.update (parserFor Vg.init st.govee_parsers device.address).1
            (mkServiceInfo device adv now)).2.entity_values ≠ []) :
    detection_callback Vg Vt pfx env now st device adv =
      detection_callback Vg Vt' pfx env now st device adv ∧
    (detection_callback Vg Vt pfx env now st device adv).1.thermopro_parsers =
      st.thermopro_parsers :=
  ⟨detection_vt_indep Vg Vt Vt' pfx env now st device adv h,
   detection_thermo_map_handled Vg Vt pfx env now st device adv h⟩

/-- Witness for C1: a concrete Govee-recognized advertisement; swapping the
ThermoPro decoder changes nothing and its dictionary stays empty. -/
theorem C1_vendor_priority_witness :
    detection_callback (constDecoder scenarioUpdate)
        (constDecoder emptySensorUpdate) "sensors" envOK 0 initGateway
        scenarioDevice scenarioAdv =
      detection_callback (constDecoder scenarioUpdate)
        (constDecoder scenarioUpdate) "sensors" envOK 0 initGateway
        scenarioDevice scenarioAdv ∧
    (detection_callback (constDecoder scenarioUpdate)
        (constDecoder emptySensorUpdate) "sensors" envOK 0 initGateway
        scenarioDevice scenarioAdv).1.thermopro_parsers =
      initGateway.thermopro_parsers :=
  C1_vendor_priority (constDecoder scenarioUpdate)
    (constDecoder emptySensorUpdate) (constDecoder scenarioUpdate) "sensors"
    envOK 0 initGateway scenarioDevice scenarioAdv (by decide)

/-- C2: For every device address (any letter case, colon- or hyphen-separated)
and every measurement kind, the published output topic equals the prefix, the
address and the kind joined by slashes, where the address component is fully
lowercased (no uppercase letter survives) and every hyphen is replaced by a
colon (no hyphen survives), with the prefix defaulting to "sensors". -/
theorem C2_topic_normalization (pfx address kind : String) :
    (∀ (σg σt : Type) (st : GatewayState σg σt) (env : String → String → ℤ)
        (v : ℚ),
        (publish_sensor_data st pfx env address kind v).head? =
          some (Event.publish (specTopic pfx address kind) (payloadFor kind v)
            true)) ∧
    topicFor pfx address kind = specTopic pfx address kind ∧
    (∀ c ∈ (macNormalize address).data, c.isUpper = false ∧ c ≠ '-') ∧
    MQTT_TOPIC_PREFIX none = "sensors" := by
  refine ⟨?_, topicFor_eq_specTopic pfx address kind,
    macNormalize_no_upper_no_hyphen address, rfl⟩
  intro σg σt st env v
  rw [← topicFor_eq_specTopic]
  rfl

/-- Witness for C2 at a concrete hyphen-separated upper-case address. -/
theorem C2_topic_normalization_witness :
    topicFor "sensors" "A4-C1-38-00-00-01" "temperature" =
      specTopic "sensors" "A4-C1-38-00-00-01" "temperature" ∧
    (':' : Char).isUpper = false ∧ (':' : Char) ≠ '-' :=
  ⟨(C2_topic_normalization "sensors" "A4-C1-38-00-00-01" "temperature").2.1,
   (C2_topic_normalization "sensors" "A4-C1-38-00-00-01" "temperature").2.2.1
     ':' (by decide)⟩

/-- C3: For every temperature or humidity value, the published payload string
is the value rounded (not truncated) to one decimal place — the rendered
tenths integer is within half a tenth of the true value; for every battery
value, the payload is the integer string of the truncated value with no
fractional component, and in particular a battery value of 87.9 yields
payload "87". -/
theorem C3_payload_formatting :
    (∀ (kind : String) (v : ℚ), kind = "temperature" ∨ kind = "humidity" →
        payloadFor kind v = formatTenths (pyRoundHalfEven (10 * v)) ∧
        |(pyRoundHalfEven (10 * v) : ℚ) - 10 * v| ≤ 1 / 2) ∧
    (∀ v : ℚ, payloadFor "battery" v = toString (pyInt v)) ∧
    payloadFor "battery" (879 / 10) = "87" := by
  refine ⟨?_, ?_, payload_battery_879⟩
  · intro kind v hk
    have hne : kind ≠ "battery" := by
      rcases hk with h | h <;> subst h <;> decide
    exact ⟨by rw [payloadFor, if_pos hne], abs_pyRoundHalfEven_sub_le (10 * v)⟩
  · intro v
    rw [payloadFor, if_neg (by simp)]

/-- Witness for C3 at the spec's temperature 21.34. -/
theorem C3_payload_formatting_witness :
    payloadFor "temperature" (2134 / 100) =
      formatTenths (pyRoundHalfEven (10 * (2134 / 100))) ∧
    |(pyRoundHalfEven (10 * (2134 / 100)) : ℚ) - 10 * (2134 / 100)| ≤ 1 / 2 :=
  C3_payload_formatting.1 "temperature" (2134 / 100) (Or.inl rfl)

/-- C4: When a decoder reports recognized readings, every reported reading of
kind temperature, humidity or battery is published exactly once (the publishes
of one processing pass are exactly one publish per recognized reading, in
order); in particular the spec's scenario 1 — an advertisement from address
A4:C1:38:00:00:01 yielding temperature 21.34 and humidity 55.6 — produces
exactly two publishes, with the stated topics and payloads. -/
theorem C4_publish_each_reading_once :
    (∀ (σg σt : Type) (st : GatewayState σg σt) (pfx : String)
        (env : String → String → ℤ) (device : BLEDevice) (u : SensorUpdate),
        (process_sensor_update st pfx env device u).2.filter isPublish =
          expectedPublishes pfx device.address u) ∧
    (detection_callback (constDecoder scenarioUpdate)
        (constDecoder emptySensorUpdate) "sensors" envOK 0 initGateway
        scenarioDevice scenarioAdv).2.filter isPublish =
      [Event.publish "sensors/a4:c1:38:00:00:01/temperature" "21.3" true,
       Event.publish "sensors/a4:c1:38:00:00:01/humidity" "55.6" true] := by
  constructor
  · intro σg σt st pfx env device u
    exact filter_isPublish_process st pfx env device u
  · rw [detection_events_handled _ _ _ _ _ _ _ _ (by decide)]
    change (process_sensor_update initGateway "sensors" envOK scenarioDevice
      scenarioUpdate).2.filter isPublish = _
    rw [filter_isPublish_process]
    change [Event.publish (topicFor "sensors" "A4:C1:38:00:00:01" "temperature")
        (payloadFor "temperature" (2134 / 100)) true,
      Event.publish (topicFor "sensors" "A4:C1:38:00:00:01" "humidity")
        (payloadFor "humidity" (556 / 10)) true] = _
    rw [payload_temperature_2134, payload_humidity_556]
    decide

/-- C5: There is exactly one decoder state per (device address, vendor) pair:
a lookup hit is routed to the stored parser without touching the dictionary, a
miss creates a fresh parser appended at the end; a callback leaves every entry
of a different address unchanged in both dictionaries, never evicts an entry,
and preserves key uniqueness. -/
theorem C5_decoder_state_per_device :
    (∀ (σ : Type) (ini : σ) (m : List (String × σ)) (a : String) (s : σ),
        dictGet m a = some s → parserFor ini m a = (s, m)) ∧
    (∀ (σ : Type) (ini : σ) (m : List (String × σ)) (a : String),
        dictGet m a = none → parserFor ini m a = (ini, m ++ [(a, ini)])) ∧
    (∀ (σg σt : Type) (Vg : VendorDecoder σg) (Vt : VendorDecoder σt)
        (pfx : String) (env : String → String → ℤ) (now : ℚ)
        (st : GatewayState σg σt) (device : BLEDevice)
        (adv : AdvertisementData) (k : String), k ≠ device.address →
        dictGet
            (detection_callback Vg Vt pfx env now st device adv).1.govee_parsers
            k = dictGet st.govee_parsers k ∧
        dictGet
            (detection_callback Vg Vt pfx env now st device
              adv).1.thermopro_parsers k = dictGet st.thermopro_parsers k) ∧
    (∀ (σg σt : Type) (Vg : VendorDecoder σg) (Vt : VendorDecoder σt)
        (pfx : String) (env : String → String → ℤ) (now : ℚ)
        (st : GatewayState σg σt) (device : BLEDevice)
        (adv : AdvertisementData) (k : String),
        (dictGet st.govee_parsers k).isSome = true →
        (dictGet
            (detection_callback Vg Vt pfx env now st device adv).1.govee_parsers
            k).isSome = true) ∧
    (∀ (σg σt : Type) (Vg : VendorDecoder σg) (Vt : VendorDecoder σt)
        (pfx : String) (env : String → String → ℤ) (now : ℚ)
        (st : GatewayState σg σt) (device : BLEDevice)
        (adv : AdvertisementData) (k : String),
        (dictGet st.thermopro_parsers k).isSome = true →
        (dictGet
            (detection_callback Vg Vt pfx env now st device
              adv).1.thermopro_parsers k).isSome = true) ∧
    (∀ (σg σt : Type) (Vg : VendorDecoder σg) (Vt : VendorDecoder σt)
        (pfx : String) (env : String → String → ℤ) (now : ℚ)
        (st : GatewayState σg σt) (device : BLEDevice)
        (adv : AdvertisementData),
        (dictKeys st.govee_parsers).Nodup →
        (dictKeys st.thermopro_parsers).Nodup →
        (dictKeys
            (detection_callback Vg Vt pfx env now st device
              adv).1.govee_parsers).Nodup ∧
        (dictKeys
            (detection_callback Vg Vt pfx env now st device
              adv).1.thermopro_parsers).Nodup) := by
  refine ⟨?_, ?_, ?_, ?_, ?_, ?_⟩
  · intro σ ini m a s h
    rw [parserFor, h]
  · intro σ ini m a h
    rw [parserFor, h]
  · intro σg σt Vg Vt pfx env now st device adv k hk
    exact ⟨detection_govee_get_ne Vg Vt pfx env now st device adv hk,
      detection_thermo_get_ne Vg Vt pfx env now st device adv hk⟩
  · intro σg σt Vg Vt pfx env now st device adv k h
    rw [detection_govee_map]
    exact isSome_after_update _ _ _ _ _ h
  · intro σg σt Vg Vt pfx env now st device adv k h
    by_cases hg : (Vg.update
        (parserFor Vg.init st.govee_parsers device.address).1
        (mkServiceInfo device adv now)).2.entity_values = []
    · rw [detection_thermo_map_unhandled _ _ _ _ _ _ _ _ hg]
      exact isSome_after_update _ _ _ _ _ h
    · rw [detection_thermo_map_handled _ _ _ _ _ _ _ _ hg]
      exact h
  · intro σg σt Vg Vt pfx env now st device adv hgn htn
    constructor
    · rw [detection_govee_map]
      exact nodup_after_update _ _ _ _ hgn
    · by_cases hg : (Vg.update
          (parserFor Vg.init st.govee_parsers device.address).1
          (mkServiceInfo device adv now)).2.entity_values = []
      · rw [detection_thermo_map_unhandled _ _ _ _ _ _ _ _ hg]
        exact nodup_after_update _ _ _ _ htn
      · rw [detection_thermo_map_handled _ _ _ _ _ _ _ _ hg]
        exact htn

/-- Witness for C5: a hit is routed to the stored state, a miss creates a
fresh entry at the end. -/
theorem C5_decoder_state_per_device_witness :
    parserFor 0 [("a", 5)] "a" = (5, [("a", 5)]) ∧
    parserFor 0 [("a", 5)] "b" = (0, [("a", 5), ("b", 0)]) :=
  ⟨C5_decoder_state_per_device.1 ℕ 0 [("a", 5)] "a" 5 (by decide),
   C5_decoder_state_per_device.2.1 ℕ 0 [("a", 5)] "b" (by decide)⟩

/-- C6: If the broker publish operation returns a non-success result code, the
failure is logged and processing continues: the resulting gateway state does
not depend on the broker's result codes, the publish is issued exactly once
(never retried) whatever the result code, a non-success result code makes the
error log line appear, and the next advertisement is processed identically
whatever result codes the previous one saw. -/
theorem C6_publish_failure_nonfatal :
    (∀ (σg σt : Type) (Vg : VendorDecoder σg) (Vt : VendorDecoder σt)
        (pfx : String) (env env' : String → String → ℤ) (now : ℚ)
        (st : GatewayState σg σt) (device : BLEDevice)
        (adv : AdvertisementData),
        (detection_callback Vg Vt pfx env now st device adv).1 =
          (detection_callback Vg Vt pfx env' now st device adv).1) ∧
    (∀ (σg σt : Type) (st : GatewayState σg σt) (pfx : String)
        (env : String → String → ℤ) (a k : String) (v : ℚ),
        (publish_sensor_data st pfx env a k v).filter isPublish =
          [Event.publish (topicFor pfx a k) (payloadFor k v) true]) ∧
    (∀ (σg σt : Type) (st : GatewayState σg σt) (pfx : String)
        (env : String → String → ℤ) (a k : String) (v : ℚ),
        env (topicFor pfx a k) (payloadFor k v) ≠ MQTT_ERR_SUCCESS →
        Event.logError ("Failed to publish to " ++ topicFor pfx a k ++ ": " ++
            toString (env (topicFor pfx a k) (payloadFor k v))) ∈
          publish_sensor_data st pfx env a k v) ∧
    (∀ (σg σt : Type) (Vg : VendorDecoder σg) (Vt : VendorDecoder σt)
        (pfx : String) (env1 env1' env2 : String → String → ℤ) (now now2 : ℚ)
        (st : GatewayState σg σt) (device device2 : BLEDevice)
        (adv adv2 : AdvertisementData),
        (detection_callback Vg Vt pfx env2 now2
            (detection_callback Vg Vt pfx env1 now st device adv).1 device2
            adv2).2 =
          (detection_callback Vg Vt pfx env2 now2
            (detection_callback Vg Vt pfx env1' now st device adv).1 device2
            adv2).2) := by
  refine ⟨?_, ?_, ?_, ?_⟩
  · intro σg σt Vg Vt pfx env env' now st device adv
    exact detection_state_env_indep Vg Vt pfx env env' now st device adv
  · intro σg σt st pfx env a k v
    exact filter_isPublish_psd st pfx env a k v
  · intro σg σt st pfx env a k v h
    simp only [publish_sensor_data]
    rw [if_neg h]
    exact List.mem_cons_of_mem _ (List.mem_singleton.mpr rfl)
  · intro σg σt Vg Vt pfx env1 env1' env2 now now2 st device device2 adv adv2
    rw [detection_state_env_indep Vg Vt pfx env1 env1' now st device adv]

/-- Witness for C6: a broker that rejects every publish still gets exactly the
error log line. -/
theorem C6_publish_failure_nonfatal_witness :
    Event.logError ("Failed to publish to " ++
        topicFor "sensors" "A4:C1:38:00:00:01" "battery" ++ ": " ++
        toString (envFail (topicFor "sensors" "A4:C1:38:00:00:01" "battery")
          (payloadFor "battery" 87))) ∈
      publish_sensor_data initGateway "sensors" envFail "A4:C1:38:00:00:01"
        "battery" 87 :=
  C6_publish_failure_nonfatal.2.2.1 ℕ ℕ initGateway "sensors" envFail
    "A4:C1:38:00:00:01" "battery" 87 (by decide)

/-- C7: For every advertisement recognized by no vendor decoder (every decoder
reports zero readings), zero messages are published and the advertisement is
silently discarded — the callback emits no event at all, so no error either. -/
theorem C7_unrecognized_discarded {σg σt : Type} (Vg : VendorDecoder σg)
    (Vt : VendorDecoder σt) (pfx : String) (env : String → String → ℤ)
    (now : ℚ) (st : GatewayState σg σt) (device : BLEDevice)
    (adv : AdvertisementData)
    (hg : (Vg.update (parserFor Vg.init st.govee_parsers device.address).1
            (mkServiceInfo device adv now)).2.entity_values = [])
    (ht : (Vt.update (parserFor Vt.init st.thermopro_parsers device.address).1
            (mkServiceInfo device adv now)).2.entity_values = []) :
    (detection_callback Vg Vt pfx env now st device adv).2 = [] := by
  rw [detection_events_unhandled _ _ _ _ _ _ _ _ hg,
    process_empty _ _ _ _ _ ht]

/-- Witness for C7: decoders that recognize nothing produce no event. -/
theorem C7_unrecognized_discarded_witness :
    (detection_callback (constDecoder emptySensorUpdate)
        (constDecoder emptySensorUpdate) "sensors" envOK 0 initGateway
        scenarioDevice scenarioAdv).2 = [] :=
  C7_unrecognized_discarded (constDecoder emptySensorUpdate)
    (constDecoder emptySensorUpdate) "sensors" envOK 0 initGateway
    scenarioDevice scenarioAdv rfl rfl

/-- C8: The gateway never publishes a message without the retain flag: every
publish event emitted by the detection callback has retain set to true. -/
theorem C8_always_retained {σg σt : Type} (Vg : VendorDecoder σg)
    (Vt : VendorDecoder σt) (pfx : String) (env : String → String → ℤ)
    (now : ℚ) (st : GatewayState σg σt) (device : BLEDevice)
    (adv : AdvertisementData) :
    (detection_callback Vg Vt pfx env now st device adv).2.all retainOK =
      true := by
  by_cases hg : (Vg.update (parserFor Vg.init st.govee_parsers device.address).1
      (mkServiceInfo device adv now)).2.entity_values = []
  · rw [detection_events_unhandled _ _ _ _ _ _ _ _ hg]
    exact all_retainOK_process _ _ _ _ _
  · rw [detection_events_handled _ _ _ _ _ _ _ _ hg]
    exact all_retainOK_process _ _ _ _ _

/-- C9: When building the service info handed to the decoders, a falsy RSSI
(exactly 0, or absent) is replaced by -127, a falsy transmit power (exactly 0,
or absent) is replaced by the absent value, truthy values pass through, and a
genuine 0 is never forwarded for either field. -/
theorem C9_falsy_rssi_txpower (device : BLEDevice) (adv : AdvertisementData)
    (now : ℚ) :
    ((adv.rssi = none ∨ adv.rssi = some 0) →
        (mkServiceInfo device adv now).rssi = -127) ∧
    (∀ r : ℤ, adv.rssi = some r → r ≠ 0 →
        (mkServiceInfo device adv now).rssi = r) ∧
    ((adv.tx_power = none ∨ adv.tx_power = some 0) →
        (mkServiceInfo device adv now).tx_power = none) ∧
    (∀ t : ℤ, adv.tx_power = some t → t ≠ 0 →
        (mkServiceInfo device adv now).tx_power = some t) ∧
    (mkServiceInfo device adv now).rssi ≠ 0 ∧
    (mkServiceInfo device adv now).tx_power ≠ some 0 := by
  refine ⟨?_, ?_, ?_, ?_, ?_, ?_⟩
  · rintro (h | h) <;> simp [mkServiceInfo, h]
  · intro r h hr
    simp [mkServiceInfo, h, hr]
  · rintro (h | h) <;> simp [mkServiceInfo, h]
  · intro t h ht
    simp [mkServiceInfo, h, ht]
  · cases h : adv.rssi with
    | none => simp [mkServiceInfo, h]
    | some r =>
      by_cases hr : r = 0 <;> simp [mkServiceInfo, h, hr]
  · cases h : adv.tx_power with
    | none => simp [mkServiceInfo, h]
    | some t =>
      by_cases ht : t = 0 <;> simp [mkServiceInfo, h, ht]

/-- Witness for C9 at an advertisement whose RSSI and tx power are exactly 0. -/
theorem C9_falsy_rssi_txpower_witness :
    (mkServiceInfo scenarioDevice advZero 0).rssi = -127 ∧
    (mkServiceInfo scenarioDevice advZero 0).tx_power = none :=
  ⟨(C9_falsy_rssi_txpower scenarioDevice advZero 0).1 (Or.inr rfl),
   (C9_falsy_rssi_txpower scenarioDevice advZero 0).2.2.1 (Or.inr rfl)⟩

/-- C10: The publish operation is deterministic and interference-free: the
topic and payload of a published message are a function only of the device
address, the measurement kind, the numeric value and the configured prefix;
differing gateway states (decoder maps, any state types), broker result codes,
or device names leave the published topic and payload identical. -/
theorem C10_publish_interference_free :
    (∀ (σg σt σg' σt' : Type) (st : GatewayState σg σt)
        (st' : GatewayState σg' σt') (pfx : String)
        (env env' : String → String → ℤ) (a k : String) (v : ℚ),
        (publish_sensor_data st pfx env a k v).filter isPublish =
          (publish_sensor_data st' pfx env' a k v).filter isPublish) ∧
    (∀ (σg σt : Type) (st : GatewayState σg σt) (pfx : String)
        (env : String → String → ℤ) (a k : String) (v : ℚ),
        (publish_sensor_data st pfx env a k v).filter isPublish =
          [Event.publish (topicFor pfx a k) (payloadFor k v) true]) ∧
    (∀ (σg σt : Type) (st : GatewayState σg σt) (pfx : String)
        (env : String → String → ℤ) (device device' : BLEDevice)
        (u : SensorUpdate), device.address = device'.address →
        (process_sensor_update st pfx env device u).2.filter isPublish =
          (process_sensor_update st pfx env device' u).2.filter isPublish) := by
  refine ⟨?_, ?_, ?_⟩
  · intro σg σt σg' σt' st st' pfx env env' a k v
    rw [filter_isPublish_psd, filter_isPublish_psd]
  · intro σg σt st pfx env a k v
    exact filter_isPublish_psd st pfx env a k v
  · intro σg σt st pfx env device device' u h
    rw [filter_isPublish_process, filter_isPublish_process, h]

/-- Witness for C10: the same readings under two device records that differ
only in name produce identical publishes. -/
theorem C10_publish_interference_free_witness :
    (process_sensor_update initGateway "sensors" envOK scenarioDevice
        scenarioUpdate).2.filter isPublish =
      (process_sensor_update initGateway "sensors" envOK scenarioDeviceNamed
        scenarioUpdate).2.filter isPublish :=
  C10_publish_interference_free.2.2 ℕ ℕ initGateway "sensors" envOK
    scenarioDevice scenarioDeviceNamed scenarioUpdate rfl

end BLEGW
